import Mathlib

/-!
Shallow embedding of the bare-metal syscall shim in
`src/bare_metal_syscalls.c` (RISC-V newlib stubs), together with proofs of
the specified properties of the heap allocator (`_sbrk`), the console byte
channel (`_write`, `_read`), the clock source (`_gettimeofday`), the
descriptor-table stubs, and the lifecycle terminator (`_exit`).

Machine integers are modelled as `Int`/`Nat`; the C `errno` global is
modelled explicitly: each operation reports the value it assigns to
`errno` (or `none` when it leaves `errno` untouched), and
`errnoAfter` gives the value of `errno` visible to the caller after the
call returns.  Addresses (`&_end`, `&_heap_end`, `heap_ptr`) are `Int`;
`NULL` is modelled as `Option.none`.
-/

namespace BareMetal

/-- POSIX-style error kinds that the shim assigns to `errno`:
`EBADF` = bad file descriptor, `ENOMEM` = out of memory,
`ENOSYS` = not implemented, `EINVAL` = invalid argument. -/
inductive Errno where
  | EBADF
  | ENOMEM
  | ENOSYS
  | EINVAL
  deriving DecidableEq, Repr

/-- The value of the `errno` global after a call: `w` is the write the call
performed (`none` if it did not assign `errno`), `prev` the value before the
call (`none` meaning no error has ever been recorded). -/
def errnoAfter (w : Option Errno) (prev : Option Errno) : Option Errno :=
  match w with
  | some e => some e
  | none => prev

/-- Link-time memory-layout symbols consumed by `_sbrk`:
`end_addr` is the address of `_end` (first byte above static data) and
`heap_end` the address of `_heap_end` (one past the usable heap). -/
structure HeapLayout where
  end_addr : Int
  heap_end : Int
  deriving DecidableEq, Repr

/-- The mutable allocator state: the static `heap_ptr` variable of
`bare_metal_syscalls.c` (line 35), `none` while it is still `NULL`. -/
structure SbrkState where
  heap_ptr : Option Int
  deriving DecidableEq, Repr

/-- Embedding of `_sbrk` (src/bare_metal_syscalls.c lines 41-60).
Lazily initializes `heap_ptr` to `&_end`, fails with `(void *)-1` and
`errno = ENOMEM` when `heap_ptr + incr > &_heap_end`, otherwise bumps
`heap_ptr` and returns the previous value. -/
def sbrk (L : HeapLayout) (incr : Int) (s : SbrkState) :
    Except Errno Int × SbrkState :=
  let hp : Int :=
    match s.heap_ptr with
    | none => L.end_addr
    | some p => p
  let prev_heap_ptr := hp
  if hp + incr > L.heap_end then
    (Except.error Errno.ENOMEM, ⟨some hp⟩)
  else
    (Except.ok prev_heap_ptr, ⟨some (hp + incr)⟩)

/-- Run a sequence of `_sbrk` calls, collecting each call's result and the
final allocator state. -/
def sbrkRun (L : HeapLayout) (s : SbrkState) :
    List Int → List (Except Errno Int) × SbrkState
  | [] => ([], s)
  | d :: ds =>
    let step := sbrk L d s
    let rest := sbrkRun L step.2 ds
    (step.1 :: rest.1, rest.2)

/-- The allocation cursor of a state: `heap_ptr` if initialized, otherwise
the value lazy initialization would give it (`&_end`). -/
def cursorOf (L : HeapLayout) (s : SbrkState) : Int :=
  match s.heap_ptr with
  | none => L.end_addr
  | some p => p

/-- The results a fully successful `_sbrk` sequence starting at cursor `c`
returns: each call yields the cursor from just before that call. -/
def expectedResults (c : Int) : List Int → List (Except Errno Int)
  | [] => []
  | d :: ds => Except.ok c :: expectedResults (c + d) ds

/-- Result of one `_write` call: the C return value, the `errno`
assignment, and the bytes actually transmitted on the UART, in order. -/
structure WriteResult where
  ret : Int
  errnoWrite : Option Errno
  transmitted : List UInt8
  deriving DecidableEq, Repr

/-- Embedding of `_write` (src/bare_metal_syscalls.c lines 66-83).  The UART
transmit path exists only as commented-out pseudo-code; the active code
unconditionally sets `errno = EBADF` and returns `-1`, transmitting
nothing, for every file descriptor. -/
def _write (file : Int) (ptr : List UInt8) (len : Int) : WriteResult :=
  { ret := -1, errnoWrite := some Errno.EBADF, transmitted := [] }

/-- Result of one `_read` call: the C return value, the `errno` assignment,
the byte stored through `ptr` (if any), and the UART receive queue after
the call. -/
structure ReadResult where
  ret : Int
  errnoWrite : Option Errno
  stored : Option UInt8
  uartAfter : List UInt8
  deriving DecidableEq, Repr

/-- Embedding of `_read` (src/bare_metal_syscalls.c lines 89-101).  The UART
receive path exists only as commented-out pseudo-code; the active code
unconditionally sets `errno = EBADF` and returns `-1` for every file
descriptor, storing nothing and leaving the hardware receive queue
untouched. -/
def _read (file : Int) (len : Int) (uart : List UInt8) : ReadResult :=
  { ret := -1, errnoWrite := some Errno.EBADF, stored := none, uartAfter := uart }

/-- `S_IFCHR`, the character-device mode bits written by `_fstat`/`_stat`. -/
def S_IFCHR : Nat := 8192

/-- Embedding of `_close` (lines 106-109): returns `-1` for every
descriptor and does not assign `errno`. -/
def _close (file : Int) : Int × Option Errno :=
  (-1, none)

/-- Embedding of `_lseek` (lines 114-117): returns `0` for every
descriptor, offset and direction. -/
def _lseek (file ptr dir : Int) : Int × Option Errno :=
  (0, none)

/-- Embedding of `_fstat` (lines 122-126): stores `S_IFCHR` into
`st->st_mode` and returns `0`, for every descriptor.  The pair is
(return value, mode stored). -/
def _fstat (file : Int) : Int × Nat :=
  (0, S_IFCHR)

/-- Embedding of `_isatty` (lines 131-134): returns `1` for every
descriptor. -/
def _isatty (file : Int) : Int :=
  1

/-- Embedding of `_kill` (lines 150-154): sets `errno = EINVAL` and returns
`-1` for every pid and signal. -/
def _kill (pid sig : Int) : Int × Option Errno :=
  (-1, some Errno.EINVAL)

/-- Embedding of `_getpid` (lines 159-162): returns the constant `1`. -/
def _getpid : Int :=
  1

/-- Embedding of `_open` (lines 185-189): sets `errno = ENOSYS` and returns
`-1` regardless of the path, flags and mode. -/
def _open (name : String) (flags mode : Int) : Int × Option Errno :=
  (-1, some Errno.ENOSYS)

/-- Embedding of `_link` (lines 191-195): sets `errno = ENOSYS`, returns `-1`. -/
def _link (old new : String) : Int × Option Errno :=
  (-1, some Errno.ENOSYS)

/-- Embedding of `_unlink` (lines 197-201): sets `errno = ENOSYS`, returns `-1`. -/
def _unlink (name : String) : Int × Option Errno :=
  (-1, some Errno.ENOSYS)

/-- Embedding of `_stat` (lines 203-207): stores `S_IFCHR` into
`st->st_mode` and returns `0` for every path. -/
def _stat (file : String) : Int × Nat :=
  (0, S_IFCHR)

/-- Embedding of `_fork` (lines 209-213): sets `errno = ENOSYS`, returns `-1`. -/
def _fork : Int × Option Errno :=
  (-1, some Errno.ENOSYS)

/-- Embedding of `_execve` (lines 215-219): sets `errno = ENOSYS`, returns
`-1` regardless of the path, argv and env. -/
def _execve (name : String) (argv env : List String) : Int × Option Errno :=
  (-1, some Errno.ENOSYS)

/-- Embedding of `_wait` (lines 221-225): sets `errno = ENOSYS`, returns
`-1`; the status pointer is never written. -/
def _wait (status : Option Int) : Int × Option Errno :=
  (-1, some Errno.ENOSYS)

/-- Configured clock frequency of `_gettimeofday` (line 177): 1 GHz. -/
def CLOCK_FREQ : Nat := 1000000000

/-- The `struct timeval` fields written by `_gettimeofday`. -/
structure Timeval where
  tv_sec : Nat
  tv_usec : Nat
  deriving DecidableEq, Repr

/-- The conversion `_gettimeofday` applies to the cycle counter
(lines 177-178): `tv_sec = cycles / 1000000000`,
`tv_usec = (cycles % 1000000000) / 1000`. -/
def cyclesToTimeval (cycles : Nat) : Timeval :=
  { tv_sec := cycles / 1000000000, tv_usec := cycles % 1000000000 / 1000 }

/-- Embedding of `_gettimeofday` (src/bare_metal_syscalls.c lines 168-181).
`cycles` is the value the `rdcycle` instruction would deliver; `tvValid`
is whether the `tv` pointer is non-`NULL`.  Returns the C return value and
the `Timeval` written through `tv` (`none` when nothing is written: on a
`NULL` pointer the counter is not even read). -/
def _gettimeofday (cycles : Nat) (tvValid : Bool) : Int × Option Timeval :=
  if tvValid then (0, some (cyclesToTimeval cycles)) else (0, none)

/-- Execution phases of `_exit` (src/bare_metal_syscalls.c lines 139-145):
`looping` is control inside the `while (1) __asm__("wfi")` loop;
`returned` would be control back in the caller. -/
inductive ExitPhase where
  | looping
  | returned
  deriving DecidableEq, Repr

/-- One step of `_exit`'s loop: the `wfi` body ends and control goes back
to the loop head; there is no edge out of the loop. -/
def exitStep : ExitPhase → ExitPhase
  | ExitPhase.looping => ExitPhase.looping
  | ExitPhase.returned => ExitPhase.returned

/-- The phase of `_exit status` after `n` loop iterations; every call
enters the loop at once, for any status. -/
def exitTrace (status : Int) : Nat → ExitPhase
  | 0 => ExitPhase.looping
  | n + 1 => exitStep (exitTrace status n)

/-! ## Properties -/

/-- C1 counterexample: on the shipped code, a write of one byte `65` to the
output stream (descriptor 1) does not transmit the byte and does not return
the count 1 — the active code fails with `EBADF` for every descriptor, the
UART path being only commented-out pseudo-code. -/
theorem write_output_stream_fails :
    ¬ ((_write 1 [65] 1).ret = 1 ∧ (_write 1 [65] 1).transmitted = [65]) := by
  decide

/-- C1 (amended): `_write` transmits zero bytes and fails with `EBADF`
(returning `-1`, never a partial count) for every stream, including the
output and error streams. -/
theorem write_always_fails_EBADF (file : Int) (ptr : List UInt8) (len : Int) :
    _write file ptr len =
      { ret := -1, errnoWrite := some Errno.EBADF, transmitted := [] } :=
  rfl

/-- C2 counterexample: on the shipped code, a read from the input stream
(descriptor 0) with a byte `65` waiting in the UART queue does not return
one byte — the active code fails with `EBADF` for every descriptor, the
UART path being only commented-out pseudo-code. -/
theorem read_input_stream_fails :
    ¬ ((_read 0 1 [65]).ret = 1 ∧ (_read 0 1 [65]).stored = some 65) := by
  decide

/-- C2 (amended): `_read` fails with `EBADF` (returning `-1`) for every
stream, including the input stream, storing no byte and leaving the
hardware receive queue untouched. -/
theorem read_always_fails_EBADF (file len : Int) (uart : List UInt8) :
    _read file len uart =
      { ret := -1, errnoWrite := some Errno.EBADF, stored := none,
        uartAfter := uart } :=
  rfl

/-- C3: from any initialized arena state with cursor `c ≤ limit`, a `grow`
request with `c + incr > limit` fails with `ENOMEM` returning the sentinel
`(void *)-1` and leaves the cursor unchanged, so that a subsequent
`grow(0)` probe still returns `c`. -/
theorem sbrk_oom_leaves_cursor_unchanged (L : HeapLayout) (c incr : Int)
    (hc : c ≤ L.heap_end) (hover : c + incr > L.heap_end) :
    sbrk L incr ⟨some c⟩ = (Except.error Errno.ENOMEM, ⟨some c⟩) ∧
    sbrk L 0 ⟨some c⟩ = (Except.ok c, ⟨some c⟩) := by
  constructor
  · simp [sbrk, hover]
  · have h0 : ¬ (c + 0 > L.heap_end) := by omega
    simp [sbrk, h0]
    omega

/-- Witness for C3 at the concrete layout `[0, 100)`, cursor 50, request 60. -/
theorem sbrk_oom_leaves_cursor_unchanged_witness :
    sbrk ⟨0, 100⟩ 60 ⟨some 50⟩ = (Except.error Errno.ENOMEM, ⟨some 50⟩) ∧
    sbrk ⟨0, 100⟩ 0 ⟨some 50⟩ = (Except.ok 50, ⟨some 50⟩) :=
  sbrk_oom_leaves_cursor_unchanged ⟨0, 100⟩ 50 60 (by decide) (by decide)

/-- Helper for C4: from an initialized cursor `c`, a sequence of
non-negative requests whose total fits below the limit succeeds call by
call, each call returning the cursor from before it, and leaves the cursor
at `c` plus the total. -/
theorem sbrkRun_all_ok (L : HeapLayout) :
    ∀ (ds : List Int) (c : Int), (∀ d ∈ ds, 0 ≤ d) →
      c + ds.sum ≤ L.heap_end →
      sbrkRun L ⟨some c⟩ ds = (expectedResults c ds, ⟨some (c + ds.sum)⟩) := by
  intro ds
  induction ds with
  | nil =>
    intro c _ _
    simp [sbrkRun, expectedResults]
  | cons d ds ih =>
    intro c hpos hsum
    have hds : ∀ x ∈ ds, 0 ≤ x := fun x hx => hpos x (List.mem_cons_of_mem d hx)
    have hsums : 0 ≤ ds.sum := List.sum_nonneg hds
    rw [List.sum_cons] at hsum
    have hcd : ¬ (c + d > L.heap_end) := by omega
    have hstep : sbrk L d ⟨some c⟩ = (Except.ok c, ⟨some (c + d)⟩) := by
      simp [sbrk, hcd]
    have hrest := ih (c + d) hds (by omega)
    simp only [sbrkRun, hstep, hrest, expectedResults, List.sum_cons]
    rw [add_assoc]

/-- The first `_sbrk` call lazily initializes `heap_ptr` to `&_end`, so a
run from the uninitialized state equals a run from cursor `&_end`. -/
theorem sbrkRun_uninit (L : HeapLayout) (d : Int) (ds : List Int) :
    sbrkRun L ⟨none⟩ (d :: ds) = sbrkRun L ⟨some L.end_addr⟩ (d :: ds) :=
  rfl

/-- C4: for any sequence of non-negative `grow` requests whose cumulative
sum stays within `[0, limit - start]`, each call returns the cursor from
before that call and afterwards the cursor is the start address plus the
total; moreover `grow(0)` on any in-bounds cursor returns that cursor
without mutating the arena. -/
theorem sbrk_monotone_sequence (L : HeapLayout) (ds : List Int)
    (hpos : ∀ d ∈ ds, 0 ≤ d) (hsum : ds.sum ≤ L.heap_end - L.end_addr) :
    (sbrkRun L ⟨none⟩ ds).1 = expectedResults L.end_addr ds ∧
    cursorOf L (sbrkRun L ⟨none⟩ ds).2 = L.end_addr + ds.sum ∧
    (∀ c : Int, c ≤ L.heap_end →
      sbrk L 0 ⟨some c⟩ = (Except.ok c, ⟨some c⟩)) := by
  have hprobe : ∀ c : Int, c ≤ L.heap_end →
      sbrk L 0 ⟨some c⟩ = (Except.ok c, ⟨some c⟩) := by
    intro c hc
    have h0 : ¬ (c + 0 > L.heap_end) := by omega
    simp [sbrk, h0]
    omega
  cases ds with
  | nil =>
    refine ⟨rfl, ?_, hprobe⟩
    simp [sbrkRun, cursorOf]
  | cons d ds =>
    have hrun := sbrkRun_all_ok L (d :: ds) L.end_addr hpos (by omega)
    rw [sbrkRun_uninit, hrun]
    exact ⟨rfl, by simp [cursorOf], hprobe⟩

/-- Witness for C4: the spec's scenario, heap region `[0, 100)`, requests
`[60, 40]`: the calls return cursors 0 and 60 and fill the region exactly. -/
theorem sbrk_monotone_sequence_witness :
    (sbrkRun ⟨0, 100⟩ ⟨none⟩ [60, 40]).1 = expectedResults 0 [60, 40] ∧
    cursorOf ⟨0, 100⟩ (sbrkRun ⟨0, 100⟩ ⟨none⟩ [60, 40]).2 = 0 + [60, 40].sum ∧
    (∀ c : Int, c ≤ (100 : Int) →
      sbrk ⟨0, 100⟩ 0 ⟨some c⟩ = (Except.ok c, ⟨some c⟩)) :=
  sbrk_monotone_sequence ⟨0, 100⟩ [60, 40] (by decide) (by decide)

/-- C5 counterexample: from the initialized arena `start = 0`,
`cursor = 10`, `limit = 100` (so `start ≤ cursor ≤ limit`), the call
`grow(-5)` succeeds and moves the cursor down to 5, strictly below its
previous value 10 — the cursor is not monotonically non-decreasing under
signed deltas. -/
theorem sbrk_negative_delta_shrinks_cursor :
    (sbrk ⟨0, 100⟩ (-5) ⟨some 10⟩).2 = ⟨some 5⟩ ∧ ¬ ((10 : Int) ≤ 5) := by
  decide

/-- C5 (amended): from an initialized arena with cursor `c ≤ limit`, any
`grow` call leaves the cursor at some value that never exceeds `limit`,
and when the delta is non-negative the cursor is monotonically
non-decreasing; a negative delta may shrink it. -/
theorem sbrk_cursor_bounded (L : HeapLayout) (c incr : Int)
    (hc : c ≤ L.heap_end) :
    ∃ c', (sbrk L incr ⟨some c⟩).2 = ⟨some c'⟩ ∧ c' ≤ L.heap_end ∧
      (0 ≤ incr → c ≤ c') := by
  by_cases h : c + incr > L.heap_end
  · exact ⟨c, by simp [sbrk, h], hc, fun _ => le_refl c⟩
  · exact ⟨c + incr, by simp [sbrk, h], by omega, fun hi => by omega⟩

/-- Witness for C5's amended bound at layout `[0, 100)`, cursor 10, delta 5. -/
theorem sbrk_cursor_bounded_witness :
    ∃ c', (sbrk ⟨0, 100⟩ 5 ⟨some 10⟩).2 = ⟨some c'⟩ ∧ c' ≤ (100 : Int) ∧
      ((0 : Int) ≤ 5 → (10 : Int) ≤ c') :=
  sbrk_cursor_bounded ⟨0, 100⟩ 10 5 (by decide)

/-- C6: with the configured frequency `F = 1000000000`, for every 64-bit
cycle count `C` the conversion yields `tv_sec = C / F` and
`tv_usec = (C % F) * 1000000 / F`, with `tv_usec < 1000000`; in
particular `C = 3*F + F/2` yields seconds 3 and microseconds 500000. -/
theorem gettimeofday_conversion (C : Nat) (h : C < 2 ^ 64) :
    (cyclesToTimeval C).tv_sec = C / CLOCK_FREQ ∧
    (cyclesToTimeval C).tv_usec = C % CLOCK_FREQ * 1000000 / CLOCK_FREQ ∧
    (cyclesToTimeval C).tv_usec < 1000000 ∧
    cyclesToTimeval (3 * CLOCK_FREQ + CLOCK_FREQ / 2) = ⟨3, 500000⟩ := by
  refine ⟨rfl, ?_, ?_, by decide⟩
  · show C % 1000000000 / 1000 = C % CLOCK_FREQ * 1000000 / CLOCK_FREQ
    rw [show CLOCK_FREQ = 1000000 * 1000 from rfl,
      Nat.mul_comm (C % (1000000 * 1000)) 1000000, Nat.mul_div_mul_left]
    omega
  · show C % 1000000000 / 1000 < 1000000
    have := Nat.mod_lt C (show 0 < 1000000000 by decide)
    omega

/-- Witness for C6 at the concrete cycle count `C = 3500000000`. -/
theorem gettimeofday_conversion_witness :
    (3500000000 : Nat) < 2 ^ 64 ∧
    ((cyclesToTimeval 3500000000).tv_sec = 3500000000 / CLOCK_FREQ ∧
     (cyclesToTimeval 3500000000).tv_usec =
       3500000000 % CLOCK_FREQ * 1000000 / CLOCK_FREQ ∧
     (cyclesToTimeval 3500000000).tv_usec < 1000000 ∧
     cyclesToTimeval (3 * CLOCK_FREQ + CLOCK_FREQ / 2) = ⟨3, 500000⟩) :=
  ⟨by norm_num, gettimeofday_conversion 3500000000 (by norm_num)⟩

/-- C7: every descriptor stub is a constant function of its arguments:
`_close` always returns the same failure value `-1` (with no `errno`
assignment), `_open`/`_link`/`_unlink`/`_fork`/`_execve`/`_wait` always
fail with `ENOSYS`, `_kill` always fails with `EINVAL`, `_lseek` returns
0, `_isatty` returns 1 (true), `_fstat`/`_stat` report mode `S_IFCHR`
(character device), and `_getpid` returns 1. -/
theorem descriptor_stubs_constant (f p d pid sig flags mode : Int)
    (stp : Option Int) (name old new path : String) (argv env : List String) :
    _close f = (-1, none) ∧
    _lseek f p d = (0, none) ∧
    _fstat f = (0, S_IFCHR) ∧
    _isatty f = 1 ∧
    _kill pid sig = (-1, some Errno.EINVAL) ∧
    _getpid = 1 ∧
    _open name flags mode = (-1, some Errno.ENOSYS) ∧
    _link old new = (-1, some Errno.ENOSYS) ∧
    _unlink path = (-1, some Errno.ENOSYS) ∧
    _stat path = (0, S_IFCHR) ∧
    _fork = (-1, some Errno.ENOSYS) ∧
    _execve name argv env = (-1, some Errno.ENOSYS) ∧
    _wait stp = (-1, some Errno.ENOSYS) :=
  ⟨rfl, rfl, rfl, rfl, rfl, rfl, rfl, rfl, rfl, rfl, rfl, rfl, rfl⟩

/-- C8 counterexample: `_close 0` does fail (returns `-1`), but it assigns
no error kind: starting from a clean `errno` the caller finds no error
kind to inspect after the call returns. -/
theorem close_sets_no_error_kind :
    (_close 0).1 = -1 ∧
    ¬ ∃ e : Errno, errnoAfter (_close 0).2 none = some e := by
  refine ⟨rfl, ?_⟩
  rintro ⟨e, h⟩
  simp [_close, errnoAfter] at h

/-- C8 (amended): `_close` always fails, returning `-1` for every handle,
but does not set an error kind: `errno` keeps whatever value it had before
the call. -/
theorem close_fails_errno_unchanged (file : Int) (prev : Option Errno) :
    (_close file).1 = -1 ∧ errnoAfter (_close file).2 prev = prev :=
  ⟨rfl, rfl⟩

/-- C9: `_exit` never returns to its caller for any status value: after
any number of iterations of its `while (1) wfi` loop, control is still in
the loop and never in the `returned` phase. -/
theorem exit_never_returns (status : Int) (n : Nat) :
    exitTrace status n ≠ ExitPhase.returned := by
  have h : exitTrace status n = ExitPhase.looping := by
    induction n with
    | zero => rfl
    | succ n ih => simp [exitTrace, ih, exitStep]
  simp [h]

/-- C10: called with a `NULL` timestamp pointer, `_gettimeofday` returns 0
(success) and writes no output, and its result does not depend on the
cycle counter — the counter is never read on this path. -/
theorem gettimeofday_null_pointer_ok (cycles cycles' : Nat) :
    _gettimeofday cycles false = (0, none) ∧
    _gettimeofday cycles false = _gettimeofday cycles' false :=
  ⟨rfl, rfl⟩

end BareMetal
